import Mathlib

/-!
Shallow embedding of the job-portal web application (Express/Mongoose app:
main server file, the User schema, and the auth/upload config variant).
Pure Lean models of the route handlers and helpers, with theorems checking
the natural-language specification against them.
-/

namespace JobPortal

/-- A job posting, as built by the `POST /employer/post-job` handler:
`{ id: Date.now(), userId: req.user.id, title, company, description,
requirements, location, createdAt }`. Ids are modelled as `Nat` (epoch
milliseconds), the owning user id as `String` (Mongo document id). -/
structure Job where
  id : Nat
  userId : String
  title : String
  company : String
  description : String
  requirements : String
  location : String
  createdAt : Nat
  deriving Repr, DecidableEq

/-- Prefix test on character lists (helper for the JS `String.includes`). -/
def isPref : List Char → List Char → Bool
  | [], _ => true
  | _ :: _, [] => false
  | a :: as, b :: bs => a == b && isPref as bs

/-- Substring search on character lists: `hasSubL needle hay` is true iff
`needle` occurs contiguously in `hay` (true for the empty needle). -/
def hasSubL (needle : List Char) : List Char → Bool
  | [] => isPref needle []
  | b :: bs => isPref needle (b :: bs) || hasSubL needle bs

/-- JavaScript `hay.includes(needle)` for strings. -/
def includesJS (hay needle : String) : Bool :=
  hasSubL needle.toList hay.toList

/-- JavaScript `s.toLowerCase()` (ASCII range, character by character). -/
def toLowerJS (s : String) : String :=
  String.mk (s.toList.map Char.toLower)

/-- JavaScript `Array.prototype.slice(start, stop)` with the ECMAScript
clamping rules: a negative index counts from the end, and both indices are
clamped into `[0, length]`. -/
def jsSlice {α : Type} (l : List α) (start stop : Int) : List α :=
  let len : Int := l.length
  let k : Nat := if start < 0 then (max (len + start) 0).toNat else (min start len).toNat
  let fin : Nat := if stop < 0 then (max (len + stop) 0).toNat else (min stop len).toNat
  (l.take fin).drop k

/-- The pagination object rendered by `GET /jobs`:
`{ current: page, total: totalPages, hasNext: page < totalPages,
hasPrev: page > 1 }`. -/
structure Pagination where
  current : Int
  total : Nat
  hasNext : Bool
  hasPrev : Bool
  deriving Repr, DecidableEq

/-- The view model rendered by `GET /jobs`: the page of jobs plus
pagination info. -/
structure JobsView where
  jobs : List Job
  pagination : Pagination
  deriving Repr, DecidableEq

/-- The filtering stage of `GET /jobs`: if a `search` query value is truthy
(present and non-empty), keep jobs whose lowercased title or description
contains the lowercased term; if a `location` value is truthy, further keep
jobs whose lowercased location contains the lowercased term. -/
def filterJobs (jobs : List Job) (search location : Option String) : List Job :=
  let f1 :=
    match search with
    | some s =>
        if s ≠ "" then
          jobs.filter (fun job =>
            includesJS (toLowerJS job.title) (toLowerJS s) ||
            includesJS (toLowerJS job.description) (toLowerJS s))
        else jobs
    | none => jobs
  match location with
  | some l =>
      if l ≠ "" then
        f1.filter (fun job => includesJS (toLowerJS job.location) (toLowerJS l))
      else f1
  | none => f1

/-- The `GET /jobs` handler: filter, then paginate with
`limit = 10`, `skip = (page - 1) * limit`,
`totalPages = Math.ceil(totalJobs / limit)`,
`filteredJobs.slice(skip, skip + limit)`.  The page number comes from the
query string and is coerced numerically by JS, so it is modelled as `Int`
(it is not clamped to ≥ 1 by the code). -/
def searchJobs (jobs : List Job) (search location : Option String) (page : Int) : JobsView :=
  let limit : Int := 10
  let skip : Int := (page - 1) * limit
  let filteredJobs := filterJobs jobs search location
  let totalJobs := filteredJobs.length
  let totalPages : Nat := (totalJobs + 9) / 10
  { jobs := jsSlice filteredJobs skip (skip + limit)
    pagination :=
      { current := page
        total := totalPages
        hasNext := decide (page < (totalPages : Int))
        hasPrev := decide (page > 1) } }

/-- The `validateJob` middleware: collects error strings for a too-short
title (`!title || title.length < 3`), a missing company (`!company`), and a
too-short description (`!description || description.length < 10`); the
falsy-string checks are spelled as equality with `""`. -/
def validateJob (title company description : String) : List String :=
  let errors : List String := []
  let errors :=
    if title = "" ∨ title.length < 3 then errors ++ ["Title must be at least 3 characters"]
    else errors
  let errors :=
    if company = "" then errors ++ ["Company name is required"] else errors
  let errors :=
    if description = "" ∨ description.length < 10 then
      errors ++ ["Description must be at least 10 characters"]
    else errors
  errors

/-- Outcome of `POST /employer/post-job`: either a redirect back to the
form with the collected errors flashed, or a redirect to `/jobs` after the
job was appended. -/
inductive PostJobOutcome where
  | rejected (redirect : String) (errors : List String)
  | posted (redirect : String)
  deriving Repr, DecidableEq

/-- The `POST /employer/post-job` handler behind `validateJob`: when the
error list is non-empty the request is redirected and the registry is left
untouched; otherwise a job built from the request body (id `Date.now()`,
owner `req.user.id`) is pushed onto the shared `jobs` array. -/
def postJob (jobs : List Job) (userId : String) (now : Nat)
    (title company description requirements location : String) :
    PostJobOutcome × List Job :=
  let errors := validateJob title company description
  if errors.length > 0 then
    (.rejected "/employer/post-job" errors, jobs)
  else
    let job : Job :=
      { id := now, userId := userId, title := title, company := company,
        description := description, requirements := requirements,
        location := location, createdAt := now }
    (.posted "/jobs", jobs ++ [job])

/-- A user document per the Mongoose `UserSchema` fields exercised by the
routes. -/
structure User where
  id : String
  name : String
  email : String
  password : String
  role : String
  avatar : String
  deriving Repr, DecidableEq

/-- Model of `User.findOne({ email: e })`: first stored user whose email
equals the queried value exactly. -/
def findOneByEmail (users : List User) (email : String) : Option User :=
  users.find? (fun u => u.email == email)

/-- Result of the passport LocalStrategy verify callback:
`done(null, false, { message })` or `done(null, user)`. -/
inductive AuthResult where
  | failure (message : String)
  | success (u : User)
  deriving Repr, DecidableEq

/-- The LocalStrategy verify callback: look the user up by
`email.toLowerCase()`; fail with the generic message when absent; otherwise
compare the plaintext password against the stored hash
(`bcrypt.compare`, modelled by the abstract `compare` function) and fail
with the same generic message on mismatch. -/
def verify (compare : String → String → Bool) (users : List User)
    (email password : String) : AuthResult :=
  match findOneByEmail users (toLowerJS email) with
  | none => .failure "Incorrect email or password"
  | some user =>
      if compare password user.password then .success user
      else .failure "Incorrect email or password"

/-- A handler response: redirect target plus the flashed messages. -/
structure Response where
  redirect : String
  flashError : Option String
  flashSuccess : Option String
  deriving Repr, DecidableEq

/-- The user document built by the `POST /auth/register` handler on the
success path: `new User({ name, email: email.toLowerCase(), password:
hashedPassword, role: role || 'jobseeker', avatar: req.file ?
`/uploads/avatars/${req.file.filename}` : '/images/default-avatar.png' })`. -/
def newUserOf (hash : String → String) (newId name email password role : String)
    (avatarFile : Option String) : User :=
  { id := newId, name := name, email := toLowerJS email, password := hash password,
    role := if role ≠ "" then role else "jobseeker",
    avatar :=
      match avatarFile with
      | some f => "/uploads/avatars/" ++ f
      | none => "/images/default-avatar.png" }

/-- The `POST /auth/register` handler: reject on
`password !== confirmPassword`; reject when
`User.findOne({ email: email.toLowerCase() })` finds an existing user;
otherwise store a new user with the lowercased email, the bcrypt hash of
the password (modelled by the abstract `hash` function), the role defaulted
by `role || 'jobseeker'`, and the avatar path from the uploaded file if
any. -/
def register (hash : String → String) (users : List User) (newId : String)
    (name email password confirmPassword role : String)
    (avatarFile : Option String) : Response × List User :=
  if password ≠ confirmPassword then
    ({ redirect := "/auth/register", flashError := some "Passwords do not match",
       flashSuccess := none }, users)
  else
    match findOneByEmail users (toLowerJS email) with
    | some _ =>
        ({ redirect := "/auth/register", flashError := some "Email already registered",
           flashSuccess := none }, users)
    | none =>
        ({ redirect := "/auth/login", flashError := none,
           flashSuccess := some "Registration successful! You can now log in" },
         users ++ [newUserOf hash newId name email password role avatarFile])

/-- The multer `fileFilter` allow-list of the main server file:
`['image/jpeg', 'image/png', 'application/pdf']`, applied to every upload
regardless of field name. -/
def allowedTypes : List String := ["image/jpeg", "image/png", "application/pdf"]

/-- Main server file's `fileFilter`: accept iff the declared MIME type is in
`allowedTypes`. -/
def fileFilter (mimetype : String) : Bool := allowedTypes.contains mimetype

/-- Main server file's `diskStorage.destination`: field `resume` goes to the
resumes directory, anything else to the avatars directory. -/
def destinationFor (fieldname : String) : String :=
  if fieldname = "resume" then "public/uploads/resumes" else "public/uploads/avatars"

/-- Outcome of handing a file to multer: either the filter rejects it (and
the storage engine is never invoked, so nothing reaches disk), or it is
stored under a destination directory with a timestamp-prefixed name. -/
inductive UploadOutcome where
  | rejected (err : String)
  | stored (dir filename : String)
  deriving Repr, DecidableEq

/-- Main server upload pipeline: `fileFilter` runs first; only on acceptance
does the storage engine pick a destination and filename
(`Date.now() + '-' + file.originalname`). -/
def acceptUpload (fieldname mimetype originalname : String) (now : Nat) : UploadOutcome :=
  if fileFilter mimetype then
    .stored (destinationFor fieldname) (toString now ++ "-" ++ originalname)
  else .rejected "Invalid file type"

/-- Scan for the last `.` in a basename, keeping its index and the suffix
from it (helper for `extname`). -/
def extnameAux : List Char → Nat → Option (Nat × List Char) → Option (Nat × List Char)
  | [], _, acc => acc
  | c :: rest, i, acc =>
      extnameAux rest (i + 1) (if c = '.' then some (i, c :: rest) else acc)

/-- The characters after the last `/` (the path's basename). -/
def afterLastSlash (cs : List Char) : List Char :=
  cs.foldl (fun acc c => if c = '/' then [] else acc ++ [c]) []

/-- Node's `path.extname`: the substring of the basename from its last `.`
to the end; empty when there is no dot or the only dot leads the name. -/
def extname (p : String) : String :=
  match extnameAux (afterLastSlash p.toList) 0 none with
  | some (i, s) => if i = 0 then "" else String.mk s
  | none => ""

/-- The regex `/jpeg|jpg|png|gif/.test(s)` of the config variant: an
unanchored search for any of the four alternatives. -/
def imageRe (s : String) : Bool :=
  includesJS s "jpeg" || includesJS s "jpg" || includesJS s "png" || includesJS s "gif"

/-- The config variant's `fileFilter` (avatar upload on its register
route): accept iff both the lowercased extension of the original name and
the declared MIME type match the image regex. -/
def cfgFileFilter (originalname mimetype : String) : Bool :=
  imageRe (toLowerJS (extname originalname)) && imageRe mimetype

/-- Config variant upload pipeline: filter first, then store into the
single uploads directory with a timestamp-prefixed name. -/
def cfgAcceptUpload (originalname mimetype : String) (now : Nat) : UploadOutcome :=
  if cfgFileFilter originalname mimetype then
    .stored "public/uploads" (toString now ++ "-" ++ originalname)
  else .rejected "Error: Images Only!"

/-- Outcome of process startup. -/
inductive StartupOutcome where
  | running
  | exited (code : Nat)
  deriving Repr, DecidableEq

/-- Model of `connectDB`: one `mongoose.connect` attempt inside try/catch; on error,
`process.exit(1)`. The sequence of would-be connection attempts is modelled
as a function from attempt number to result; the code only ever makes
attempt 0. -/
def connectDB (attempts : Nat → Except String Unit) : StartupOutcome :=
  match attempts 0 with
  | .ok _ => .running
  | .error _ => .exited 1

/-- The `GET /` handler's selection:
`jobs.filter(job => !req.user || job.userId === req.user.id)` with the
principal (`req.user`) modelled as an optional user id. -/
def homeJobs (jobs : List Job) (principal : Option String) : List Job :=
  jobs.filter (fun job =>
    match principal with
    | none => true
    | some uid => job.userId == uid)

/-! ### Helper lemmas about the JS slice model -/

theorem take_min_len {α : Type} (l : List α) (b : Nat) :
    l.take (min b l.length) = l.take b := by
  rcases Nat.le_total b l.length with h | h
  · rw [Nat.min_eq_left h]
  · rw [Nat.min_eq_right h, List.take_length, List.take_of_length_le h]

theorem drop_min_len {α : Type} (l : List α) (a c : Nat) (hc : l.length ≤ c) :
    l.drop (min a c) = l.drop a := by
  rcases Nat.le_total a c with h | h
  · rw [Nat.min_eq_left h]
  · rw [Nat.min_eq_right h, List.drop_eq_nil_of_le hc,
      List.drop_eq_nil_of_le (Nat.le_trans hc h)]

/-- With non-negative indices, `jsSlice` is take-then-drop. -/
theorem jsSlice_ofNat {α : Type} (l : List α) (a b : Nat) :
    jsSlice l (a : Int) (b : Int) = (l.take b).drop a := by
  have ha : ¬((a : Int) < 0) := by omega
  have hb : ¬((b : Int) < 0) := by omega
  have hka : (min (a : Int) (l.length : Int)).toNat = min a l.length := by omega
  have hkb : (min (b : Int) (l.length : Int)).toNat = min b l.length := by omega
  simp only [jsSlice, ha, hb, if_false, hka, hkb]
  rw [take_min_len]
  exact drop_min_len _ _ _ (by rw [List.length_take]; omega)

/-- C1: with page size 10 and a filtered set of size `N`, the reported
total is `⌈N/10⌉` (characterized below as the least `m` with `N ≤ 10·m`),
page `p ≥ 1` carries the matching jobs at indices
`[10·(p−1), 10·(p−1)+9]`, `hasNext ↔ p < ⌈N/10⌉`, and `hasPrev ↔ p > 1`. -/
theorem searchJobs_pagination (jobs : List Job) (search location : Option String)
    (p : Nat) (hp : 1 ≤ p) :
    (searchJobs jobs search location (p : Int)).jobs
      = ((filterJobs jobs search location).drop (10 * (p - 1))).take 10 ∧
    (searchJobs jobs search location (p : Int)).pagination.total
      = ((filterJobs jobs search location).length + 9) / 10 ∧
    ((searchJobs jobs search location (p : Int)).pagination.hasNext = true
      ↔ p < ((filterJobs jobs search location).length + 9) / 10) ∧
    ((searchJobs jobs search location (p : Int)).pagination.hasPrev = true ↔ 1 < p) ∧
    (filterJobs jobs search location).length
      ≤ 10 * (((filterJobs jobs search location).length + 9) / 10) ∧
    (∀ m : Nat, (filterJobs jobs search location).length ≤ 10 * m →
      ((filterJobs jobs search location).length + 9) / 10 ≤ m) := by
  refine ⟨?_, rfl, ?_, ?_, by omega, fun m hm => by omega⟩
  · show jsSlice (filterJobs jobs search location)
        (((p : Nat) - 1) * 10) ((((p : Nat) : Int) - 1) * 10 + 10) = _
    have e1 : (((p : Nat) : Int) - 1) * 10 = ((10 * (p - 1) : Nat) : Int) := by omega
    have e2 : ((10 * (p - 1) : Nat) : Int) + 10 = ((10 * (p - 1) + 10 : Nat) : Int) := by
      omega
    rw [e1, e2, jsSlice_ofNat, List.drop_take]
    have e3 : 10 * (p - 1) + 10 - 10 * (p - 1) = 10 := by omega
    rw [e3]
  · show decide (((p : Nat) : Int)
        < (((filterJobs jobs search location).length + 9) / 10 : Nat)) = true ↔ _
    rw [decide_eq_true_eq]
    omega
  · show decide (((p : Nat) : Int) > 1) = true ↔ _
    rw [decide_eq_true_eq]
    omega

/-- A concrete registry of 25 jobs for the scenario checks. -/
def mkJob (i : Nat) : Job :=
  { id := i, userId := "u1", title := "Engineer", company := "Acme",
    description := "builds and ships software", requirements := "",
    location := "Remote", createdAt := i }

/-- 25 distinct jobs. -/
def jobs25 : List Job := (List.range 25).map mkJob

/-- Witness for C1: the spec scenario — 25 jobs, page 2 — satisfies the
hypothesis `1 ≤ 2`, and the theorem instantiates to it: jobs[10..19],
total `(25+9)/10 = 3`, `hasNext`, `hasPrev`. -/
theorem searchJobs_pagination_witness :
    1 ≤ 2 ∧
    ((searchJobs jobs25 none none ((2 : Nat) : Int)).jobs
        = ((filterJobs jobs25 none none).drop (10 * (2 - 1))).take 10 ∧
      (searchJobs jobs25 none none ((2 : Nat) : Int)).pagination.total
        = ((filterJobs jobs25 none none).length + 9) / 10 ∧
      ((searchJobs jobs25 none none ((2 : Nat) : Int)).pagination.hasNext = true
        ↔ 2 < ((filterJobs jobs25 none none).length + 9) / 10) ∧
      ((searchJobs jobs25 none none ((2 : Nat) : Int)).pagination.hasPrev = true
        ↔ 1 < 2) ∧
      (filterJobs jobs25 none none).length
        ≤ 10 * (((filterJobs jobs25 none none).length + 9) / 10) ∧
      (∀ m : Nat, (filterJobs jobs25 none none).length ≤ 10 * m →
        ((filterJobs jobs25 none none).length + 9) / 10 ≤ m)) :=
  ⟨by decide, searchJobs_pagination jobs25 none none 2 (by decide)⟩

/-- C3: the `GET /jobs` filtering stage returns exactly the matching jobs —
for a non-empty free-text term, a case-insensitive substring match on title
or description; for a non-empty location term, an independent
case-insensitive substring match on location; both together compose by
logical AND. -/
theorem filterJobs_spec (jobs : List Job) (s l : String) (hs : s ≠ "") (hl : l ≠ "") :
    filterJobs jobs (some s) none =
      jobs.filter (fun job =>
        includesJS (toLowerJS job.title) (toLowerJS s) ||
        includesJS (toLowerJS job.description) (toLowerJS s)) ∧
    filterJobs jobs none (some l) =
      jobs.filter (fun job => includesJS (toLowerJS job.location) (toLowerJS l)) ∧
    filterJobs jobs (some s) (some l) =
      jobs.filter (fun job =>
        (includesJS (toLowerJS job.title) (toLowerJS s) ||
          includesJS (toLowerJS job.description) (toLowerJS s)) &&
        includesJS (toLowerJS job.location) (toLowerJS l)) := by
  refine ⟨by simp [filterJobs, hs], by simp [filterJobs, hl], ?_⟩
  simp only [filterJobs, hs, hl, ne_eq, not_false_eq_true, if_true, ite_true]
  rw [List.filter_filter]
  exact List.filter_congr (fun a _ => Bool.and_comm _ _)

/-- Witness for C3 at a concrete registry and the terms "eng" / "rem". -/
theorem filterJobs_spec_witness :
    ("eng" ≠ "" ∧ "rem" ≠ "") ∧
    (filterJobs jobs25 (some "eng") none =
      jobs25.filter (fun job =>
        includesJS (toLowerJS job.title) (toLowerJS "eng") ||
        includesJS (toLowerJS job.description) (toLowerJS "eng")) ∧
    filterJobs jobs25 none (some "rem") =
      jobs25.filter (fun job => includesJS (toLowerJS job.location) (toLowerJS "rem")) ∧
    filterJobs jobs25 (some "eng") (some "rem") =
      jobs25.filter (fun job =>
        (includesJS (toLowerJS job.title) (toLowerJS "eng") ||
          includesJS (toLowerJS job.description) (toLowerJS "eng")) &&
        includesJS (toLowerJS job.location) (toLowerJS "rem"))) :=
  ⟨⟨by decide, by decide⟩, filterJobs_spec jobs25 "eng" "rem" (by decide) (by decide)⟩

/-- C10: a request with `page = 0` renders an empty page (the JS slice is
`slice(-10, 0)`, which is empty — no out-of-bounds access), `hasPrev` is
false, and `hasNext` is true exactly when some job matches the filters. -/
theorem searchJobs_page_zero (jobs : List Job) (search location : Option String) :
    (searchJobs jobs search location 0).jobs = [] ∧
    (searchJobs jobs search location 0).pagination.hasPrev = false ∧
    ((searchJobs jobs search location 0).pagination.hasNext
      = !(filterJobs jobs search location).isEmpty) := by
  refine ⟨?_, rfl, ?_⟩
  · show jsSlice (filterJobs jobs search location) (((0 : Int) - 1) * 10)
        (((0 : Int) - 1) * 10 + 10) = []
    have h1 : ((0 : Int) - 1) * 10 < 0 := by omega
    have h2 : ¬(((0 : Int) - 1) * 10 + 10 < 0) := by omega
    have h3 : (min (((0 : Int) - 1) * 10 + 10)
        ((filterJobs jobs search location).length : Int)).toNat = 0 := by omega
    simp only [jsSlice, h1, h2, if_true, if_false, ite_true, ite_false, h3,
      List.take_zero, List.drop_nil]
  · show decide ((0 : Int) < (((filterJobs jobs search location).length + 9) / 10 : Nat))
        = !(filterJobs jobs search location).isEmpty
    rcases h : filterJobs jobs search location with _ | ⟨j, rest⟩
    · rfl
    · simp only [List.isEmpty_cons, Bool.not_false, decide_eq_true_eq]
      have : (j :: rest).length = rest.length + 1 := rfl
      omega

/-- A falsy or too-short title is exactly a too-short title, since the
empty string has length 0. -/
theorem title_short_iff (t : String) : (t = "" ∨ t.length < 3) ↔ t.length < 3 := by
  constructor
  · rintro (rfl | h)
    · decide
    · exact h
  · exact Or.inr

/-- A falsy or too-short description is exactly a too-short description. -/
theorem descr_short_iff (d : String) : (d = "" ∨ d.length < 10) ↔ d.length < 10 := by
  constructor
  · rintro (rfl | h)
    · decide
    · exact h
  · exact Or.inr

/-- C2: validation collects exactly the violated rules — the title error is
reported iff the title is shorter than 3 characters, the company error iff
the company is absent, the description error iff the description is shorter
than 10 characters; on any violation the registry is unchanged and the
request is redirected with all collected errors, and only a violation-free
request appends the job. -/
theorem postJob_validation (jobs : List Job) (uid : String) (now : Nat)
    (title company description requirements location : String) :
    (("Title must be at least 3 characters" ∈ validateJob title company description)
      ↔ title.length < 3) ∧
    (("Company name is required" ∈ validateJob title company description)
      ↔ company = "") ∧
    (("Description must be at least 10 characters" ∈ validateJob title company description)
      ↔ description.length < 10) ∧
    (validateJob title company description ≠ [] →
      (postJob jobs uid now title company description requirements location).2 = jobs ∧
      (postJob jobs uid now title company description requirements location).1
        = .rejected "/employer/post-job" (validateJob title company description)) ∧
    (validateJob title company description = [] →
      (postJob jobs uid now title company description requirements location).2
        = jobs ++ [{ id := now, userId := uid, title := title, company := company,
                     description := description, requirements := requirements,
                     location := location, createdAt := now }]) := by
  refine ⟨?_, ?_, ?_, ?_, ?_⟩
  · simp only [validateJob, title_short_iff, descr_short_iff]
    split_ifs with h1 h2 h3 <;> simp_all
  · simp only [validateJob, title_short_iff, descr_short_iff]
    split_ifs with h1 h2 h3 <;> simp_all
  · simp only [validateJob, title_short_iff, descr_short_iff]
    split_ifs with h1 h2 h3 <;> simp_all
  · intro h
    have hlen : 0 < (validateJob title company description).length :=
      List.length_pos.mpr h
    constructor <;> simp [postJob, hlen]
  · intro h
    simp [postJob, h]

/-- Witness for C2: the spec scenario — a 2-character title "Go" is
rejected, the error list is flashed, and no job is appended. -/
theorem postJob_validation_witness :
    validateJob "Go" "Acme" "a long enough description" ≠ [] ∧
    validateJob "Go" "Acme" "a long enough description"
      = ["Title must be at least 3 characters"] ∧
    (postJob [] "u1" 5 "Go" "Acme" "a long enough description" "" "Remote").2 = [] ∧
    (postJob [] "u1" 5 "Go" "Acme" "a long enough description" "" "Remote").1
      = .rejected "/employer/post-job"
          (validateJob "Go" "Acme" "a long enough description") :=
  ⟨by decide, by decide,
    ((postJob_validation [] "u1" 5 "Go" "Acme" "a long enough description" ""
      "Remote").2.2.2.1 (by decide)).1,
    ((postJob_validation [] "u1" 5 "Go" "Acme" "a long enough description" ""
      "Remote").2.2.2.1 (by decide)).2⟩

/-- C4: every failure of the LocalStrategy verify callback — unknown email
or failed hash comparison — produces the identical generic message, so the
two causes are observationally indistinguishable. -/
theorem verify_generic_failure (compare : String → String → Bool) (users : List User)
    (email password : String) :
    (∀ m, verify compare users email password = .failure m →
      m = "Incorrect email or password") ∧
    (findOneByEmail users (toLowerJS email) = none →
      verify compare users email password = .failure "Incorrect email or password") ∧
    (∀ u, findOneByEmail users (toLowerJS email) = some u →
      compare password u.password = false →
      verify compare users email password = .failure "Incorrect email or password") := by
  refine ⟨?_, ?_, ?_⟩
  · intro m hm
    unfold verify at hm
    split at hm
    · injection hm with h1
      exact h1.symm
    · split at hm
      · cases hm
      · injection hm with h1
        exact h1.symm
  · intro h
    unfold verify
    rw [h]
  · intro u hu hc
    unfold verify
    rw [hu]
    show (if compare password u.password = true then AuthResult.success u
        else AuthResult.failure "Incorrect email or password")
      = AuthResult.failure "Incorrect email or password"
    rw [hc]
    simp

/-- A sample stored user. -/
def u0 : User :=
  { id := "id0", name := "Olive", email := "olive@x.com", password := "hashed-pw",
    role := "jobseeker", avatar := "/images/default-avatar.png" }

/-- Witness for C4: both failure causes at concrete inputs yield the one
generic message — no user with the email, and a failing hash comparison. -/
theorem verify_generic_failure_witness :
    verify (fun _ _ => true) [] "Olive@X.com" "pw"
      = .failure "Incorrect email or password" ∧
    verify (fun _ _ => false) [u0] "Olive@X.com" "pw"
      = .failure "Incorrect email or password" :=
  ⟨(verify_generic_failure (fun _ _ => true) [] "Olive@X.com" "pw").2.1 (by decide),
   (verify_generic_failure (fun _ _ => false) [u0] "Olive@X.com" "pw").2.2 u0
     (by decide) rfl⟩

/-- C5: a registration whose confirmation password differs from the primary
password leaves the user store unchanged and redirects back to the
registration form with the error flashed. -/
theorem register_password_mismatch (hash : String → String) (users : List User)
    (newId name email password confirmPassword role : String)
    (avatarFile : Option String) (h : password ≠ confirmPassword) :
    (register hash users newId name email password confirmPassword role avatarFile).2
      = users ∧
    (register hash users newId name email password confirmPassword role avatarFile).1
      = { redirect := "/auth/register", flashError := some "Passwords do not match",
          flashSuccess := none } := by
  constructor <;> simp [register, h]

/-- Witness for C5 at a concrete mismatched pair. -/
theorem register_password_mismatch_witness :
    (register (fun s => "h" ++ s) [u0] "id1" "Alice" "alice@x.com" "pw123456"
      "pw1234567" "jobseeker" none).2 = [u0] ∧
    (register (fun s => "h" ++ s) [u0] "id1" "Alice" "alice@x.com" "pw123456"
      "pw1234567" "jobseeker" none).1
      = { redirect := "/auth/register", flashError := some "Passwords do not match",
          flashSuccess := none } :=
  register_password_mismatch (fun s => "h" ++ s) [u0] "id1" "Alice" "alice@x.com"
    "pw123456" "pw1234567" "jobseeker" none (by decide)

/-- C6: a successful registration stores the lowercased email; credential
verification is insensitive to the case of the submitted email (it lowers
it before the lookup); and a second registration whose email differs only
in case from the first (same lowercasing) is rejected as a duplicate,
leaving the store unchanged. -/
theorem register_email_normalization (hash : String → String) (users : List User)
    (newId name email password role : String) (avatarFile : Option String)
    (hdup : findOneByEmail users (toLowerJS email) = none) :
    ((register hash users newId name email password password role avatarFile).2
      = users ++ [newUserOf hash newId name email password role avatarFile] ∧
      (newUserOf hash newId name email password role avatarFile).email
        = toLowerJS email) ∧
    (∀ (compare : String → String → Bool) (pw e' : String),
      toLowerJS e' = toLowerJS email →
      verify compare users e' pw = verify compare users email pw) ∧
    (∀ (newId2 name2 pw2 role2 e' : String) (av2 : Option String),
      toLowerJS e' = toLowerJS email →
      (register hash
          (users ++ [newUserOf hash newId name email password role avatarFile])
          newId2 name2 e' pw2 pw2 role2 av2).2
        = users ++ [newUserOf hash newId name email password role avatarFile] ∧
      (register hash
          (users ++ [newUserOf hash newId name email password role avatarFile])
          newId2 name2 e' pw2 pw2 role2 av2).1
        = { redirect := "/auth/register",
            flashError := some "Email already registered", flashSuccess := none }) := by
  have hself : ¬(password ≠ password) := fun h => h rfl
  refine ⟨⟨?_, rfl⟩, ?_, ?_⟩
  · unfold register
    rw [if_neg hself, hdup]
  · intro compare pw e' he'
    unfold verify
    rw [he']
  · intro newId2 name2 pw2 role2 e' av2 he'
    have hself2 : ¬(pw2 ≠ pw2) := fun h => h rfl
    have hfind : findOneByEmail
        (users ++ [newUserOf hash newId name email password role avatarFile])
        (toLowerJS e')
        = some (newUserOf hash newId name email password role avatarFile) := by
      unfold findOneByEmail at hdup ⊢
      rw [List.find?_append, he', hdup, Option.none_or]
      simp [newUserOf]
    constructor
    · unfold register
      rw [if_neg hself2, hfind]
    · unfold register
      rw [if_neg hself2, hfind]

/-- Witness for C6: the spec scenario — registering `Alice@X.com` stores
`alice@x.com`; verification treats `ALICE@x.COM` like `Alice@X.com`; a
second registration as `ALICE@x.COM` is rejected with "Email already
registered" and adds nothing. -/
theorem register_email_normalization_witness :
    ((register (fun s => "h" ++ s) [] "id1" "Alice" "Alice@X.com" "pw123456"
        "pw123456" "jobseeker" none).2
      = [] ++ [newUserOf (fun s => "h" ++ s) "id1" "Alice" "Alice@X.com" "pw123456"
          "jobseeker" none] ∧
      (newUserOf (fun s => "h" ++ s) "id1" "Alice" "Alice@X.com" "pw123456"
        "jobseeker" none).email = toLowerJS "Alice@X.com") ∧
    (newUserOf (fun s => "h" ++ s) "id1" "Alice" "Alice@X.com" "pw123456"
      "jobseeker" none).email = "alice@x.com" ∧
    verify (fun _ _ => true) [] "ALICE@x.COM" "pw"
      = verify (fun _ _ => true) [] "Alice@X.com" "pw" ∧
    (register (fun s => "h" ++ s)
        ([] ++ [newUserOf (fun s => "h" ++ s) "id1" "Alice" "Alice@X.com" "pw123456"
            "jobseeker" none])
        "id2" "Alice Again" "ALICE@x.COM" "pw2" "pw2" "jobseeker" none).2
      = [] ++ [newUserOf (fun s => "h" ++ s) "id1" "Alice" "Alice@X.com" "pw123456"
          "jobseeker" none] ∧
    (register (fun s => "h" ++ s)
        ([] ++ [newUserOf (fun s => "h" ++ s) "id1" "Alice" "Alice@X.com" "pw123456"
            "jobseeker" none])
        "id2" "Alice Again" "ALICE@x.COM" "pw2" "pw2" "jobseeker" none).1
      = { redirect := "/auth/register", flashError := some "Email already registered",
          flashSuccess := none } :=
  ⟨(register_email_normalization (fun s => "h" ++ s) [] "id1" "Alice" "Alice@X.com"
      "pw123456" "jobseeker" none (by decide)).1,
   by decide,
   (register_email_normalization (fun s => "h" ++ s) [] "id1" "Alice" "Alice@X.com"
      "pw123456" "jobseeker" none (by decide)).2.1 (fun _ _ => true) "pw" "ALICE@x.COM"
      (by decide),
   ((register_email_normalization (fun s => "h" ++ s) [] "id1" "Alice" "Alice@X.com"
      "pw123456" "jobseeker" none (by decide)).2.2 "id2" "Alice Again" "pw2" "jobseeker"
      "ALICE@x.COM" none (by decide)).1,
   ((register_email_normalization (fun s => "h" ++ s) [] "id1" "Alice" "Alice@X.com"
      "pw123456" "jobseeker" none (by decide)).2.2 "id2" "Alice Again" "pw2" "jobseeker"
      "ALICE@x.COM" none (by decide)).2⟩

/-- C7 counterexample: the main app accepts a file declaring
`application/pdf` in the avatar upload context and stores it under the
avatars directory, although `application/pdf` is not an image MIME type
(it does not start with `image/`) — so the allow-list applied to avatar
uploads is not image-only, contrary to the claim's per-context
allow-lists. -/
theorem acceptUpload_avatar_pdf :
    acceptUpload "avatar" "application/pdf" "cv.pdf" 7
      = .stored "public/uploads/avatars" "7-cv.pdf" ∧
    isPref ("image/").toList ("application/pdf").toList = false := by
  constructor
  · rfl
  · rfl

/-- C7 amended: in the main app the declared-MIME allow-list is the same
for avatar and resume uploads — `{image/jpeg, image/png, application/pdf}`
— and a file outside it is rejected by the filter with nothing handed to
the storage engine; in the config variant (avatar uploads on its register
route), a file is rejected before storage unless both its lowercased
extension and its declared MIME type match the jpeg/jpg/png/gif pattern —
failure of either check suffices for rejection. -/
theorem upload_allowlist (fieldname mimetype originalname : String) (now : Nat)
    (h : mimetype ∉ allowedTypes) :
    acceptUpload fieldname mimetype originalname now
      = .rejected "Invalid file type" ∧
    (∀ (name2 mt2 : String) (n2 : Nat),
      imageRe (toLowerJS (extname name2)) = false ∨ imageRe mt2 = false →
      cfgAcceptUpload name2 mt2 n2 = .rejected "Error: Images Only!") := by
  constructor
  · have hf : fileFilter mimetype = false := by
      simp only [fileFilter, allowedTypes] at h ⊢
      simp [h]
    simp [acceptUpload, hf]
  · intro name2 mt2 n2 hmt
    have hf : cfgFileFilter name2 mt2 = false := by
      rcases hmt with hmt | hmt <;> simp [cfgFileFilter, hmt]
    simp [cfgAcceptUpload, hf]

/-- Witness for C7's amended statement: a `text/plain` avatar upload is
rejected by the main app's filter; in the config variant, `cv.pdf`
declared as `image/png` (extension check fails, MIME check passes) and
`scan.png` declared as `application/pdf` (extension check passes, MIME
check fails) are both rejected. -/
theorem upload_allowlist_witness :
    ("text/plain" ∉ allowedTypes ∧
      acceptUpload "avatar" "text/plain" "notes.txt" 3
        = .rejected "Invalid file type") ∧
    (imageRe (toLowerJS (extname "cv.pdf")) = false ∧ imageRe "image/png" = true ∧
      cfgAcceptUpload "cv.pdf" "image/png" 4
        = .rejected "Error: Images Only!") ∧
    (imageRe (toLowerJS (extname "scan.png")) = true ∧
      imageRe "application/pdf" = false ∧
      cfgAcceptUpload "scan.png" "application/pdf" 5
        = .rejected "Error: Images Only!") :=
  ⟨⟨by decide,
    (upload_allowlist "avatar" "text/plain" "notes.txt" 3 (by decide)).1⟩,
   ⟨by decide, by decide,
    (upload_allowlist "avatar" "text/plain" "notes.txt" 3 (by decide)).2
      "cv.pdf" "image/png" 4 (Or.inl (by decide))⟩,
   ⟨by decide, by decide,
    (upload_allowlist "avatar" "text/plain" "notes.txt" 3 (by decide)).2
      "scan.png" "application/pdf" 5 (Or.inr (by decide))⟩⟩

/-- C8: if the single initial connection attempt fails, startup exits the
process with failure status 1; no further attempt is consulted — the
outcome depends only on attempt 0, so there is no retry or backoff. -/
theorem connectDB_exits_on_failure (attempts : Nat → Except String Unit) (e : String)
    (h : attempts 0 = .error e) :
    connectDB attempts = .exited 1 ∧
    (∀ attempts2 : Nat → Except String Unit, attempts2 0 = attempts 0 →
      connectDB attempts2 = connectDB attempts) := by
  constructor
  · unfold connectDB
    rw [h]
  · intro a2 h2
    unfold connectDB
    rw [h2]

/-- Witness for C8: a concrete failing connection attempt exits with
status 1, and any attempt sequence agreeing on attempt 0 behaves the
same. -/
theorem connectDB_exits_on_failure_witness :
    connectDB (fun _ => .error "connection refused") = .exited 1 ∧
    connectDB (fun n => if n = 0 then .error "connection refused" else .ok ())
      = connectDB (fun _ => .error "connection refused") :=
  ⟨(connectDB_exits_on_failure (fun _ => .error "connection refused")
      "connection refused" rfl).1,
   (connectDB_exits_on_failure (fun _ => .error "connection refused")
      "connection refused" rfl).2
      (fun n => if n = 0 then .error "connection refused" else .ok ()) rfl⟩

/-- C9: the home page gives an anonymous request the whole registry, and an
authenticated request exactly the jobs owned by the authenticated
principal — jobs of other users never appear. -/
theorem homeJobs_visibility (jobs : List Job) (uid : String) :
    homeJobs jobs none = jobs ∧
    homeJobs jobs (some uid) = jobs.filter (fun job => job.userId == uid) ∧
    (∀ j, j ∈ homeJobs jobs (some uid) → j.userId = uid) := by
  refine ⟨?_, rfl, ?_⟩
  · show jobs.filter (fun _ => true) = jobs
    simp
  · intro j hj
    have h2 : (j.userId == uid) = true := (List.mem_filter.mp hj).2
    exact eq_of_beq h2

/-- Witness for C9 at the concrete registry: anonymous sees all 25 jobs,
the owner sees exactly their own, and a member of the owner's homepage has
the owner's id. -/
theorem homeJobs_visibility_witness :
    homeJobs jobs25 none = jobs25 ∧
    homeJobs jobs25 (some "u1") = jobs25.filter (fun job => job.userId == "u1") ∧
    (mkJob 0 ∈ homeJobs jobs25 (some "u1") ∧ (mkJob 0).userId = "u1") :=
  ⟨(homeJobs_visibility jobs25 "u1").1,
   (homeJobs_visibility jobs25 "u1").2.1,
   ⟨by decide, (homeJobs_visibility jobs25 "u1").2.2 (mkJob 0) (by decide)⟩⟩

end JobPortal
